import Mathlib

/-!
# ZOTAC Gaming Zone controller: data model of `zotac-zone-hid-core.c`

The driver's core header declares the wire constants, the enumerations and the
state structures every other part of the driver works on.  This development
embeds those declarations and proves the properties the specification states
about them.

Conventions of the embedding:

* an object-like `#define` is a `Nat` constant with the same name;
* `u8` and `u32` are the naturals below `2 ^ 8` and `2 ^ 32`; arithmetic on
  them is done on `Nat` with an explicit `% 2 ^ 8`;
* a C array `T a[N]` is a `carray T N`, a list of exactly `N` elements;
* a C `enum` is an inductive type with the enumerators in declaration order;
  the value of an enumerator is its position, since every enumeration of the
  header starts with an explicit `= 0` and gives no other value;
* a structure is a Lean structure with the same member names.  Members that
  are kernel objects (mutexes, pointers to input or USB devices) carry no data
  of the model and are left out, which each structure notes.
-/

namespace ZotacZone

/-! ## Constants (`#define`) -/

def ZOTAC_GAMEPAD_INTERFACE : Nat := 0
def ZOTAC_DIAL_INTERFACE : Nat := 1
def ZOTAC_REPORT_INTERFACE : Nat := 2
def ZOTAC_COMMAND_INTERFACE : Nat := 3

def ZOTAC_FF_REPORT_ID : Nat := 0x00
def ZOTAC_FF_REPORT_LEN : Nat := 8
def ZOTAC_NUM_URBS : Nat := 3
def ZOTAC_NUM_FF_URBS : Nat := 2

def CMD_SAVE_CONFIG : Nat := 0xFB
def CMD_SET_RGB : Nat := 0xAD
def CMD_GET_RGB : Nat := 0xAE

def ZOTAC_RGB_ZONE_COUNT : Nat := 2
def ZOTAC_RGB_LEDS_PER_ZONE : Nat := 10

def SENSITIVITY_POINT_COUNT : Nat := 4

def CMD_SET_BUTTON_MAPPING : Nat := 0xA1
def CMD_GET_BUTTON_MAPPING : Nat := 0xA2

def BUTTON_MAX : Nat := 0x18
def MAX_GAMEPAD_BUTTONS : Nat := 14
def MAX_KEYBOARD_KEYS : Nat := 6
def MAX_MOUSE_BUTTONS : Nat := 3

/-! ## Machine types -/

/-- The kernel type `u8` (also `uint8_t`): a natural below `2 ^ 8`. -/
abbrev u8 : Type := Fin (2 ^ 8)

/-- The kernel type `u32`: a natural below `2 ^ 32`. -/
abbrev u32 : Type := Fin (2 ^ 32)

/-- A C array `T a[n]`: exactly `n` elements, indexed from `0`. -/
structure carray (α : Type) (n : Nat) where
  elems : List α
  size_eq : elems.length = n

/-- The element at index `i` of a C array, `none` when `i` is out of range. -/
def carray.at? {α : Type} {n : Nat} (a : carray α n) (i : Nat) : Option α :=
  a.elems.get? i

/-- The array all of whose elements are `x`. -/
def carray.fill {α : Type} (n : Nat) (x : α) : carray α n :=
  ⟨List.replicate n x, List.length_replicate n x⟩

/-! ## Enumerations -/

/-- The C enumeration `enum qam_mode`. -/
inductive qam_mode where
  | QAM_MODE_KEYBOARD
  | QAM_MODE_STEAM
  | QAM_MODE_CUSTOM
  | QAM_MODE_LENGTH
  deriving DecidableEq, Repr

/-- The C enumeration `enum zotac_dial_function`, sentinel included. -/
inductive zotac_dial_function where
  | DIAL_SCROLL
  | DIAL_SCROLL_INV
  | DIAL_SCROLL_H
  | DIAL_VOLUME
  | DIAL_BRIGHTNESS
  | DIAL_ARROWS_V
  | DIAL_ARROWS_H
  | DIAL_MEDIA
  | DIAL_PAGE_SCROLL
  | DIAL_ZOOM
  | DIAL_FUNC_MAX
  deriving DecidableEq, Repr

/-- The enumerators of `enum zotac_dial_function` in declaration order. -/
def zotac_dial_function.enumerators : List zotac_dial_function :=
  [.DIAL_SCROLL, .DIAL_SCROLL_INV, .DIAL_SCROLL_H, .DIAL_VOLUME, .DIAL_BRIGHTNESS,
   .DIAL_ARROWS_V, .DIAL_ARROWS_H, .DIAL_MEDIA, .DIAL_PAGE_SCROLL, .DIAL_ZOOM,
   .DIAL_FUNC_MAX]

/-- The integer value of an enumerator: `DIAL_SCROLL = 0` is explicit and each
later enumerator is one more than the one before it. -/
def zotac_dial_function.val (f : zotac_dial_function) : Nat :=
  zotac_dial_function.enumerators.indexOf f

/-- The C structure `struct stick_sensitivity`. -/
structure stick_sensitivity where
  values : carray u8 (SENSITIVITY_POINT_COUNT * 2)

/-- The C structure `struct deadzone`. -/
structure deadzone where
  inner : u8
  outer : u8
  deriving DecidableEq, Repr

/-- The C structure `struct button_mapping`. -/
structure button_mapping where
  target_gamepad_buttons : u32
  target_modifier_keys : u8
  target_keyboard_keys : carray u8 MAX_KEYBOARD_KEYS
  target_mouse_buttons : u8

/-- The C structure `struct zotac_cfg_data`, without `command_mutex`. -/
structure zotac_cfg_data where
  sequence_num : u8
  ls_dz : deadzone
  rs_dz : deadzone
  lt_dz : deadzone
  rt_dz : deadzone
  left_stick_sensitivity : stick_sensitivity
  right_stick_sensitivity : stick_sensitivity
  button_turbo : u8
  button_mappings : carray button_mapping (BUTTON_MAX + 1)
  left_dial_func : zotac_dial_function
  right_dial_func : zotac_dial_function

/-- The field access `cfg->button_mappings[i]`, `none` when `i` is not an index
of the table. -/
def zotac_cfg_data.button_mapping_at? (cfg : zotac_cfg_data) (i : Nat) :
    Option button_mapping :=
  cfg.button_mappings.at? i

/-! ## RGB state -/

/-- The C structure `struct zotac_rgb_dev`: the members that hold data. -/
structure zotac_rgb_dev where
  output_worker_initialized : Bool
  removed : Bool
  update_rgb : Bool
  red : carray u8 ZOTAC_RGB_LEDS_PER_ZONE
  green : carray u8 ZOTAC_RGB_LEDS_PER_ZONE
  blue : carray u8 ZOTAC_RGB_LEDS_PER_ZONE
  brightness : u8

/-- The anonymous structure of one element of `zotac_rgb_data.zone`. -/
structure rgb_zone where
  red : carray u8 ZOTAC_RGB_LEDS_PER_ZONE
  green : carray u8 ZOTAC_RGB_LEDS_PER_ZONE
  blue : carray u8 ZOTAC_RGB_LEDS_PER_ZONE
  brightness : u8

/-- The C structure `struct zotac_rgb_data`. -/
structure zotac_rgb_data where
  zone : carray rgb_zone ZOTAC_RGB_ZONE_COUNT
  effect : u8
  speed : u8
  brightness : u8
  initialized : Bool

/-- The colour of LED `i` of a zone, `(red[i], green[i], blue[i])`; `none` when
one of the three arrays has no element `i`. -/
def rgb_zone.led? (z : rgb_zone) (i : Nat) : Option (u8 × u8 × u8) :=
  match z.red.at? i, z.green.at? i, z.blue.at? i with
  | some r, some g, some b => some (r, g, b)
  | _, _, _ => none

/-- All colour bytes of a zone: the red, the green and the blue array. -/
def rgb_zone.colour_bytes (z : rgb_zone) : List u8 :=
  z.red.elems ++ z.green.elems ++ z.blue.elems

/-- All colour bytes of the RGB state block, zone after zone. -/
def zotac_rgb_data.colour_bytes (d : zotac_rgb_data) : List u8 :=
  (d.zone.elems.map rgb_zone.colour_bytes).flatten

/-- The C structure `struct zotac_device`: the members that are structures of
this driver.  `cfg_data` and `led_rgb_dev` are pointers (`none` is `NULL`);
`led_rgb_data` is embedded by value. -/
structure zotac_device where
  cfg_data : Option zotac_cfg_data
  led_rgb_dev : Option zotac_rgb_dev
  led_rgb_data : zotac_rgb_data

/-! ## Gamepad state: the member table of `struct zotac_gamepad`

The members of `struct zotac_gamepad` are kernel objects (URBs, DMA buffers,
atomics), so the structure is embedded as the table of its member
declarations: name, C type and array dimension, in declaration order. -/

/-- The C types the members of `struct zotac_gamepad` have. -/
inductive ctype where
  | input_dev_ptr
  | zotac_device_ptr
  | bool
  | usb_endpoint_descriptor_ptr
  | urb_ptr
  | unsigned_char_ptr
  | dma_addr_t
  | atomic_t
  | delayed_work
  | unsigned_int
  | enum_qam_mode
  deriving DecidableEq, Repr

/-- The dimension a member is declared with: none (a scalar), or an array
sized by one of the two pool constants. -/
inductive cdim where
  | scalar
  | NUM_URBS
  | NUM_FF_URBS
  deriving DecidableEq, Repr

/-- The number of elements a dimension stands for. -/
def cdim.count : cdim → Nat
  | .scalar => 1
  | .NUM_URBS => ZOTAC_NUM_URBS
  | .NUM_FF_URBS => ZOTAC_NUM_FF_URBS

/-- One member declaration of a structure. -/
structure member_decl where
  name : String
  type : ctype
  dim : cdim
  deriving DecidableEq, Repr

/-- The members of `struct zotac_gamepad`, in declaration order. -/
def zotac_gamepad_members : List member_decl :=
  [ ⟨"dev", .input_dev_ptr, .scalar⟩,
    ⟨"zotac", .zotac_device_ptr, .scalar⟩,
    ⟨"disconnect", .bool, .scalar⟩,
    ⟨"ep_in", .usb_endpoint_descriptor_ptr, .scalar⟩,
    ⟨"ep_out", .usb_endpoint_descriptor_ptr, .scalar⟩,
    ⟨"urbs", .urb_ptr, .NUM_URBS⟩,
    ⟨"urb_buf", .unsigned_char_ptr, .NUM_URBS⟩,
    ⟨"ff_urbs", .urb_ptr, .NUM_FF_URBS⟩,
    ⟨"ff_data", .unsigned_char_ptr, .NUM_FF_URBS⟩,
    ⟨"ff_dma", .dma_addr_t, .NUM_FF_URBS⟩,
    ⟨"ff_active", .atomic_t, .NUM_FF_URBS⟩,
    ⟨"button_press_in_progress", .atomic_t, .scalar⟩,
    ⟨"button_work", .delayed_work, .scalar⟩,
    ⟨"button_to_press", .unsigned_int, .scalar⟩,
    ⟨"button_to_press2", .unsigned_int, .scalar⟩,
    ⟨"update_qam", .bool, .scalar⟩,
    ⟨"qam_mode", .enum_qam_mode, .scalar⟩ ]

/-- The two transfer pools of the gamepad state: the inbound report URBs and
the outbound force-feedback URBs. -/
inductive transfer_pool where
  | inbound
  | outbound
  deriving DecidableEq, Repr

/-- The constant that dimensions the arrays of a pool. -/
def transfer_pool.dim : transfer_pool → cdim
  | .inbound => .NUM_URBS
  | .outbound => .NUM_FF_URBS

/-- The number of elements of C type `t` that the arrays of pool `p` hold:
every member dimensioned by the pool's constant and of type `t` counts with
its array length. -/
def pool_elements (p : transfer_pool) (t : ctype) : Nat :=
  ((zotac_gamepad_members.filter
      (fun m => decide (m.dim = p.dim) && decide (m.type = t))).map
    (fun m => m.dim.count)).sum

/-- The slots of a pool: its URBs (`struct urb *`). -/
def pool_slots (p : transfer_pool) : Nat := pool_elements p .urb_ptr

/-- The transfer buffers of a pool (`unsigned char *`). -/
def pool_buffers (p : transfer_pool) : Nat := pool_elements p .unsigned_char_ptr

/-- The busy/idle flags of a pool (`atomic_t`). -/
def pool_busy_flags (p : transfer_pool) : Nat := pool_elements p .atomic_t

/-- A button mapping whose mouse-button mask has bit 3 set: all three members
other than `target_mouse_buttons` are zero. -/
def mapping_mouse_bit3 : button_mapping :=
  { target_gamepad_buttons := 0
    target_modifier_keys := 0
    target_keyboard_keys := carray.fill MAX_KEYBOARD_KEYS 0
    target_mouse_buttons := 8 }

/-- An RGB zone with every LED off. -/
def rgb_zone.off : rgb_zone :=
  { red := carray.fill ZOTAC_RGB_LEDS_PER_ZONE 0
    green := carray.fill ZOTAC_RGB_LEDS_PER_ZONE 0
    blue := carray.fill ZOTAC_RGB_LEDS_PER_ZONE 0
    brightness := 0 }

/-- A zero-filled device context, as `kzalloc` hands it out: null pointers, an
all-zero RGB state block. -/
def zotac_device.zeroed : zotac_device :=
  { cfg_data := none
    led_rgb_dev := none
    led_rgb_data :=
      { zone := carray.fill ZOTAC_RGB_ZONE_COUNT rgb_zone.off
        effect := 0
        speed := 0
        brightness := 0
        initialized := false } }

/-- A zero-filled configuration store, as `kzalloc` hands it out. -/
def zotac_cfg_data.zeroed : zotac_cfg_data :=
  { sequence_num := 0
    ls_dz := ⟨0, 0⟩
    rs_dz := ⟨0, 0⟩
    lt_dz := ⟨0, 0⟩
    rt_dz := ⟨0, 0⟩
    left_stick_sensitivity := ⟨carray.fill (SENSITIVITY_POINT_COUNT * 2) 0⟩
    right_stick_sensitivity := ⟨carray.fill (SENSITIVITY_POINT_COUNT * 2) 0⟩
    button_turbo := 0
    button_mappings := carray.fill (BUTTON_MAX + 1) ⟨0, 0, carray.fill MAX_KEYBOARD_KEYS 0, 0⟩
    left_dial_func := .DIAL_SCROLL
    right_dial_func := .DIAL_SCROLL }

/-! ## Command channel: sequence numbers

The header declares `zotac_send_get_command`, `zotac_send_set_command` and
`zotac_send_get_byte` and the counter `zotac_cfg_data.sequence_num` they use;
the bodies are not part of the header. -/

/-- Modelled from the spec: the bodies of the `zotac_send_*` functions are
missing; the spec says the channel "allocates the next sequence number
(wrapping u8 counter)".  The successor of a counter value, wrapping at
`2 ^ 8`. -/
def next_sequence (s : u8) : u8 :=
  ⟨(s.val + 1) % 2 ^ 8, Nat.mod_lt _ (by decide)⟩

/-- Modelled from the spec: one allocation on the per-device counter
`sequence_num` (the allocating code is missing): the counter advances to the
next value, which is the number issued. -/
def alloc_sequence (cfg : zotac_cfg_data) : u8 × zotac_cfg_data :=
  (next_sequence cfg.sequence_num, { cfg with sequence_num := next_sequence cfg.sequence_num })

/-- The number issued by allocation `n` (counting from 0) of a run of
consecutive allocations that starts in store `cfg`. -/
def issued_sequence (cfg : zotac_cfg_data) : Nat → u8
  | 0 => (alloc_sequence cfg).1
  | n + 1 => issued_sequence (alloc_sequence cfg).2 n

/-- Modelled from the spec: the error kinds of the command channel
(`ChannelTimeout`, `ChannelBusy`, `Disconnected`); the channel's code is
missing. -/
inductive ChannelError where
  | ChannelTimeout
  | ChannelBusy
  | Disconnected
  deriving DecidableEq, Repr

/-- The device's side of one request: its answer to the frame with the given
command code, setting byte, sequence number and payload, as the channel sees
it (`ok` for an acknowledgement, otherwise the channel error the wait ends
in). -/
abbrev device_answer : Type := u8 → u8 → u8 → List u8 → Except ChannelError Unit

/-- Modelled from the spec: `send_set(cmd_code, setting, data)` of the command
channel (the body of `zotac_send_set_command` is missing).  The spec: the
channel "allocates the next sequence number (wrapping u8 counter), encodes and
transmits the frame, blocks the issuing task until either a matching-sequence
response arrives or a timeout elapses".  The sequence number comes from
`sequence_num` of the configuration store, so every call advances that member,
whatever the device answers.  The result is the outcome and the store after the
call. -/
def send_set (device : device_answer) (cfg : zotac_cfg_data) (cmd_code setting : u8)
    (data : List u8) : Except ChannelError Unit × zotac_cfg_data :=
  (device cmd_code setting (alloc_sequence cfg).1 data, (alloc_sequence cfg).2)

/-! ## Configuration store: deadzones

`get_field` and `set_field` are the accessors the spec gives the configuration
store; their code is not part of the header, which only declares the stored
members `ls_dz`, `rs_dz`, `lt_dz` and `rt_dz`. -/

/-- Modelled from the spec: the errors of `set_field` (its code is missing):
`ValidationError`, or the channel's error handed on to the caller. -/
inductive ConfigError where
  | ValidationError
  | Channel (e : ChannelError)
  deriving DecidableEq, Repr

/-- The four deadzone members of `struct zotac_cfg_data`: left stick, right
stick, left trigger, right trigger. -/
inductive deadzone_field where
  | ls_dz
  | rs_dz
  | lt_dz
  | rt_dz
  deriving DecidableEq, Repr

/-- Modelled from the spec: `get_field(kind) -> value` for the deadzone kinds
(the accessor's code is missing), "served from memory, no device round-trip". -/
def get_field (cfg : zotac_cfg_data) : deadzone_field → deadzone
  | .ls_dz => cfg.ls_dz
  | .rs_dz => cfg.rs_dz
  | .lt_dz => cfg.lt_dz
  | .rt_dz => cfg.rt_dz

/-- The store with deadzone member `kind` overwritten by `v`. -/
def store_deadzone (cfg : zotac_cfg_data) (kind : deadzone_field) (v : deadzone) :
    zotac_cfg_data :=
  match kind with
  | .ls_dz => { cfg with ls_dz := v }
  | .rs_dz => { cfg with rs_dz := v }
  | .lt_dz => { cfg with lt_dz := v }
  | .rt_dz => { cfg with rt_dz := v }

/-- Modelled from the spec: `set_field(kind, value) -> Result<(), ConfigError>`
for the deadzone kinds (the accessor's code is missing).  The spec: it
"validates the value against the field's invariant (e.g., inner ≤ outer ...),
then builds the corresponding Command Frame and calls the Channel's
`send_set`.  A failed `send_set` leaves the in-memory value unchanged (no
partial update) and returns the channel's error to the caller"; a
`ValidationError` is "rejected before any device I/O, in-memory state
unchanged".

`command_of kind` is the command code and setting byte of the frame for `kind`,
which neither the header nor the spec fixes; the payload is the two bytes
`inner`, `outer`.  The result is the outcome and the store after the call: after
a `send_set`, acknowledged or not, the store is the one `send_set` left, with
the sequence counter advanced. -/
def set_field (device : device_answer) (command_of : deadzone_field → u8 × u8)
    (cfg : zotac_cfg_data) (kind : deadzone_field) (v : deadzone) :
    Except ConfigError Unit × zotac_cfg_data :=
  if v.inner ≤ v.outer then
    match send_set device cfg (command_of kind).1 (command_of kind).2 [v.inner, v.outer] with
    | (.ok (), sent) => (.ok (), store_deadzone sent kind v)
    | (.error e, sent) => (.error (.Channel e), sent)
  else
    (.error .ValidationError, cfg)

/-- Every stored deadzone has `inner ≤ outer`. -/
def deadzones_ordered (cfg : zotac_cfg_data) : Prop :=
  ∀ kind : deadzone_field, (get_field cfg kind).inner ≤ (get_field cfg kind).outer

/-- The operations of the model that write the configuration store: a
`set_field` call on a deadzone, and any other command sent through the channel
(which advances the sequence counter).  Each carries the device's answers
during that call. -/
inductive store_op where
  | set_deadzone (device : device_answer) (kind : deadzone_field) (value : deadzone)
  | send (device : device_answer) (cmd_code setting : u8) (data : List u8)

/-- The store after one operation, whatever it returned. -/
def apply_op (command_of : deadzone_field → u8 × u8) (cfg : zotac_cfg_data) :
    store_op → zotac_cfg_data
  | .set_deadzone device kind value => (set_field device command_of cfg kind value).2
  | .send device cmd_code setting data => (send_set device cfg cmd_code setting data).2

/-- The store after a run of operations. -/
def run_ops (command_of : deadzone_field → u8 × u8) (cfg : zotac_cfg_data) :
    List store_op → zotac_cfg_data
  | [] => cfg
  | op :: ops => run_ops command_of (apply_op command_of cfg op) ops

/-- A device that has been unplugged: every request ends in `Disconnected`. -/
def device_disconnected : device_answer :=
  fun _ _ _ _ => .error .Disconnected

/-- A device that acknowledges every frame. -/
def device_acks : device_answer :=
  fun _ _ _ _ => .ok ()

/-! ## Theorems -/

/-- C4: the command code constants have the wire values of byte 0 of a command
frame (set-RGB `0xAD`, get-RGB `0xAE`, set-button-mapping `0xA1`,
get-button-mapping `0xA2`, save-config `0xFB`), each fits in one byte, and the
five are pairwise distinct. -/
theorem command_codes_wire_values :
    CMD_SET_RGB = 0xAD ∧ CMD_GET_RGB = 0xAE ∧ CMD_SET_BUTTON_MAPPING = 0xA1 ∧
    CMD_GET_BUTTON_MAPPING = 0xA2 ∧ CMD_SAVE_CONFIG = 0xFB ∧
    CMD_SET_RGB < 256 ∧ CMD_GET_RGB < 256 ∧ CMD_SET_BUTTON_MAPPING < 256 ∧
    CMD_GET_BUTTON_MAPPING < 256 ∧ CMD_SAVE_CONFIG < 256 ∧
    [CMD_SET_RGB, CMD_GET_RGB, CMD_SET_BUTTON_MAPPING, CMD_GET_BUTTON_MAPPING,
      CMD_SAVE_CONFIG].Pairwise (fun a b => a ≠ b) := by
  decide

/-- C7: the force-feedback output report is 8 bytes long and has report id 0. -/
theorem ff_report_len_and_id : ZOTAC_FF_REPORT_LEN = 8 ∧ ZOTAC_FF_REPORT_ID = 0 := by
  decide

/-- C5: the button mapping table of the configuration store has exactly
`BUTTON_MAX + 1 = 25` entries; an index `i` is in range exactly when
`i ≤ BUTTON_MAX = 24`, so index 24 is in range and index 25 is not. -/
theorem button_mappings_index_range (cfg : zotac_cfg_data) (i : Nat) :
    cfg.button_mappings.elems.length = BUTTON_MAX + 1 ∧
    BUTTON_MAX + 1 = 25 ∧ BUTTON_MAX = 0x18 ∧
    ((cfg.button_mapping_at? i).isSome ↔ i ≤ BUTTON_MAX) ∧
    (cfg.button_mapping_at? 24).isSome ∧
    cfg.button_mapping_at? 25 = none := by
  have hlen : cfg.button_mappings.elems.length = 25 := cfg.button_mappings.size_eq
  have hsome : ∀ j, (cfg.button_mapping_at? j).isSome ↔ j < 25 := by
    intro j
    unfold zotac_cfg_data.button_mapping_at? carray.at?
    rw [List.get?_eq_getElem?, ← hlen]
    by_cases h : j < cfg.button_mappings.elems.length
    · simp [h]
    · simp [h, List.getElem?_eq_none (Nat.le_of_not_lt h)]
  refine ⟨cfg.button_mappings.size_eq, by decide, by decide, ?_, ?_, ?_⟩
  · rw [hsome i]
    have : BUTTON_MAX = 24 := by decide
    omega
  · exact (hsome 24).2 (by decide)
  · have h := hsome 25
    cases hc : cfg.button_mapping_at? 25 with
    | none => rfl
    | some m => rw [hc] at h; exact absurd (h.1 rfl) (by decide)

/-- C8, as stated, fails on the inbound pool: `struct zotac_gamepad` has three
inbound slots and no busy/idle flag for any of them, so there the number of
flags differs from the number of slots. -/
theorem inbound_pool_has_no_busy_flags :
    pool_slots .inbound = 3 ∧ pool_busy_flags .inbound = 0 ∧
    pool_busy_flags .inbound ≠ pool_slots .inbound := by
  decide

/-- C8, amended: the gamepad state holds a pool of exactly 3 inbound report
slots and a pool of exactly 2 outbound force-feedback slots; in each pool the
number of buffers equals the number of slots; each outbound slot also has one
DMA address and one busy/idle flag (`ff_active`), while the inbound pool has no
busy/idle flags. -/
theorem transfer_pools_layout :
    pool_slots .inbound = ZOTAC_NUM_URBS ∧ ZOTAC_NUM_URBS = 3 ∧
    pool_slots .outbound = ZOTAC_NUM_FF_URBS ∧ ZOTAC_NUM_FF_URBS = 2 ∧
    (∀ p : transfer_pool, pool_buffers p = pool_slots p) ∧
    pool_elements .outbound .dma_addr_t = pool_slots .outbound ∧
    pool_busy_flags .outbound = pool_slots .outbound ∧
    pool_busy_flags .inbound = 0 := by
  refine ⟨by decide, by decide, by decide, by decide, ?_, by decide, by decide, by decide⟩
  intro p
  cases p <;> decide

/-- C10, as stated, fails on the mouse-button mask: `target_mouse_buttons` is
a `u8`, so an entry whose mask is 8 (bit 3 set) is representable, and 8 is not
below `2 ^ MAX_MOUSE_BUTTONS = 2 ^ 3`. -/
theorem mouse_mask_not_below_two_pow_three :
    mapping_mouse_bit3.target_mouse_buttons.val = 8 ∧
    ¬ (mapping_mouse_bit3.target_mouse_buttons.val < 2 ^ MAX_MOUSE_BUTTONS) := by
  decide

/-- C10, amended: every button mapping entry consists of a 32-bit target
gamepad-button mask (`< 2 ^ 32`), an 8-bit target modifier mask (`< 2 ^ 8`),
exactly `MAX_KEYBOARD_KEYS = 6` target keycode bytes (so at most 6 keycodes) and
a target mouse-button mask held in 8 bits (`< 2 ^ 8`), with
`MAX_MOUSE_BUTTONS = 3`. -/
theorem button_mapping_layout (m : button_mapping) :
    m.target_gamepad_buttons.val < 2 ^ 32 ∧
    m.target_modifier_keys.val < 2 ^ 8 ∧
    m.target_keyboard_keys.elems.length = MAX_KEYBOARD_KEYS ∧
    m.target_keyboard_keys.elems.length ≤ 6 ∧
    (∀ k ∈ m.target_keyboard_keys.elems, k.val < 2 ^ 8) ∧
    m.target_mouse_buttons.val < 2 ^ 8 ∧
    MAX_KEYBOARD_KEYS = 6 ∧ MAX_MOUSE_BUTTONS = 3 := by
  refine ⟨m.target_gamepad_buttons.isLt, m.target_modifier_keys.isLt,
    m.target_keyboard_keys.size_eq, ?_, fun k _ => k.isLt, m.target_mouse_buttons.isLt,
    by decide, by decide⟩
  rw [m.target_keyboard_keys.size_eq]
  decide

/-- C9: the RGB state block of the device context holds exactly 2 zones of
exactly 10 addressable LEDs, each LED with one red, one green and one blue
byte (60 colour bytes in total), plus one device-global effect id, one
device-global speed and one device-global brightness, each a byte. -/
theorem rgb_state_block_layout (dev : zotac_device) :
    dev.led_rgb_data.zone.elems.length = ZOTAC_RGB_ZONE_COUNT ∧
    ZOTAC_RGB_ZONE_COUNT = 2 ∧ ZOTAC_RGB_LEDS_PER_ZONE = 10 ∧
    (∀ z ∈ dev.led_rgb_data.zone.elems,
      z.red.elems.length = 10 ∧ z.green.elems.length = 10 ∧ z.blue.elems.length = 10 ∧
      ∀ i : Nat, (z.led? i).isSome ↔ i < ZOTAC_RGB_LEDS_PER_ZONE) ∧
    dev.led_rgb_data.colour_bytes.length = 2 * 10 * 3 ∧
    dev.led_rgb_data.colour_bytes.length = 60 ∧
    dev.led_rgb_data.effect.val < 2 ^ 8 ∧
    dev.led_rgb_data.speed.val < 2 ^ 8 ∧
    dev.led_rgb_data.brightness.val < 2 ^ 8 := by
  have hzone : ∀ z : rgb_zone, z.colour_bytes.length = 30 := by
    intro z
    have hr : z.red.elems.length = 10 := z.red.size_eq
    have hg : z.green.elems.length = 10 := z.green.size_eq
    have hb : z.blue.elems.length = 10 := z.blue.size_eq
    simp [rgb_zone.colour_bytes, hr, hg, hb]
  have hbytes : dev.led_rgb_data.colour_bytes.length = 60 := by
    have hlen : dev.led_rgb_data.zone.elems.length = 2 := dev.led_rgb_data.zone.size_eq
    unfold zotac_rgb_data.colour_bytes
    match hz : dev.led_rgb_data.zone.elems, hlen with
    | [z0, z1], _ => simp [hzone]
  refine ⟨dev.led_rgb_data.zone.size_eq, by decide, by decide, ?_, hbytes, hbytes,
    dev.led_rgb_data.effect.isLt, dev.led_rgb_data.speed.isLt,
    dev.led_rgb_data.brightness.isLt⟩
  intro z _
  have hr : z.red.elems.length = 10 := z.red.size_eq
  have hg : z.green.elems.length = 10 := z.green.size_eq
  have hb : z.blue.elems.length = 10 := z.blue.size_eq
  refine ⟨hr, hg, hb, ?_⟩
  intro i
  have h10 : ZOTAC_RGB_LEDS_PER_ZONE = 10 := by decide
  unfold rgb_zone.led? carray.at?
  simp only [List.get?_eq_getElem?]
  by_cases hi : i < 10
  · have h1 : i < z.red.elems.length := by omega
    have h2 : i < z.green.elems.length := by omega
    have h3 : i < z.blue.elems.length := by omega
    simp [List.getElem?_eq_getElem, h1, h2, h3, h10, hi]
  · have h1 : z.red.elems[i]? = none := List.getElem?_eq_none (by omega)
    simp [h1, h10, hi]

/-- C9 at the zero-filled device context: its two zones hold 60 colour bytes,
and LED 9 of its all-off zone exists. -/
theorem rgb_state_block_layout_witness :
    zotac_device.zeroed.led_rgb_data.colour_bytes.length = 60 ∧
    rgb_zone.off ∈ zotac_device.zeroed.led_rgb_data.zone.elems ∧
    (rgb_zone.off.led? 9).isSome :=
  ⟨(rgb_state_block_layout zotac_device.zeroed).2.2.2.2.2.1,
   List.mem_cons_self rgb_zone.off [rgb_zone.off],
   (((rgb_state_block_layout zotac_device.zeroed).2.2.2.1 rgb_zone.off
      (List.mem_cons_self rgb_zone.off [rgb_zone.off])).2.2.2 9).2 (by decide)⟩

/-- C10 (amended) at the entry whose mouse mask is 8: the mask is below
`2 ^ 8`, the entry has six keycode bytes, and its keycode byte 0 is below
`2 ^ 8`. -/
theorem button_mapping_layout_witness :
    mapping_mouse_bit3.target_mouse_buttons.val < 2 ^ 8 ∧
    mapping_mouse_bit3.target_keyboard_keys.elems.length = 6 ∧
    (0 : u8) ∈ mapping_mouse_bit3.target_keyboard_keys.elems ∧
    (0 : u8).val < 2 ^ 8 :=
  ⟨(button_mapping_layout mapping_mouse_bit3).2.2.2.2.2.1,
   (button_mapping_layout mapping_mouse_bit3).2.2.1,
   by decide,
   (button_mapping_layout mapping_mouse_bit3).2.2.2.2.1 0 (by decide)⟩

/-- Closed form of the numbers a run of allocations issues. -/
theorem issued_sequence_val (cfg : zotac_cfg_data) (n : Nat) :
    (issued_sequence cfg n).val = (cfg.sequence_num.val + n + 1) % 256 := by
  induction n generalizing cfg with
  | zero => simp [issued_sequence, alloc_sequence, next_sequence]
  | succ k ih =>
    rw [issued_sequence, ih]
    simp only [alloc_sequence, next_sequence]
    omega

/-- C3: sequence numbers issued by the command channel increase by one modulo
256: the per-device counter `sequence_num` is an 8-bit value, each issued number
is the previous one plus 1 modulo 256 (one more while below 255, and 0 after
255), and any 256 consecutively issued numbers are pairwise distinct. -/
theorem sequence_numbers_wrap (cfg : zotac_cfg_data) (n : Nat) :
    cfg.sequence_num.val < 2 ^ 8 ∧
    (issued_sequence cfg n).val < 2 ^ 8 ∧
    (issued_sequence cfg (n + 1)).val = ((issued_sequence cfg n).val + 1) % 256 ∧
    ((issued_sequence cfg n).val < 255 →
      (issued_sequence cfg (n + 1)).val = (issued_sequence cfg n).val + 1) ∧
    ((issued_sequence cfg n).val = 255 → (issued_sequence cfg (n + 1)).val = 0) ∧
    (∀ i j : Nat, n ≤ i → i < j → j < n + 256 →
      issued_sequence cfg i ≠ issued_sequence cfg j) := by
  have hstep : (issued_sequence cfg (n + 1)).val = ((issued_sequence cfg n).val + 1) % 256 := by
    rw [issued_sequence_val, issued_sequence_val]
    omega
  refine ⟨cfg.sequence_num.isLt, (issued_sequence cfg n).isLt, hstep, ?_, ?_, ?_⟩
  · intro h
    rw [hstep]
    omega
  · intro h
    rw [hstep, h]
  · intro i j _ hij hj heq
    have hv := congrArg Fin.val heq
    rw [issued_sequence_val, issued_sequence_val] at hv
    omega

/-- C3 at the zero-filled store whose counter stands at 253: the second number
issued is 255, the third is 0, and the first and the 256th differ. -/
theorem sequence_numbers_wrap_witness :
    (issued_sequence { zotac_cfg_data.zeroed with sequence_num := 253 } 1).val = 255 ∧
    (issued_sequence { zotac_cfg_data.zeroed with sequence_num := 253 } 2).val = 0 ∧
    issued_sequence { zotac_cfg_data.zeroed with sequence_num := 253 } 0 ≠
      issued_sequence { zotac_cfg_data.zeroed with sequence_num := 253 } 255 :=
  ⟨by decide,
   (sequence_numbers_wrap { zotac_cfg_data.zeroed with sequence_num := 253 } 1).2.2.2.2.1
     (by decide),
   (sequence_numbers_wrap { zotac_cfg_data.zeroed with sequence_num := 253 } 0).2.2.2.2.2
     0 255 (by decide) (by decide) (by decide)⟩

/-- Reading back the member just written gives the value written. -/
theorem get_field_store_deadzone_same (cfg : zotac_cfg_data) (kind : deadzone_field)
    (v : deadzone) : get_field (store_deadzone cfg kind v) kind = v := by
  cases kind <;> rfl

/-- Writing one deadzone member leaves the other three as they were. -/
theorem get_field_store_deadzone_other (cfg : zotac_cfg_data) (kind other : deadzone_field)
    (v : deadzone) (h : other ≠ kind) :
    get_field (store_deadzone cfg kind v) other = get_field cfg other := by
  cases kind <;> cases other <;> first | rfl | exact absurd rfl h

/-- A `send_set` call changes no deadzone (it advances the sequence counter
only). -/
theorem get_field_send_set (device : device_answer) (cfg : zotac_cfg_data)
    (cmd_code setting : u8) (data : List u8) (kind : deadzone_field) :
    get_field (send_set device cfg cmd_code setting data).2 kind = get_field cfg kind := by
  cases kind <;> rfl

/-- A `set_field` call whose `send_set` fails returns the channel's error,
leaves every deadzone as it was and has advanced the sequence counter. -/
theorem set_field_channel_error (device : device_answer)
    (command_of : deadzone_field → u8 × u8) (cfg : zotac_cfg_data) (kind : deadzone_field)
    (v : deadzone) (e : ChannelError) (hv : v.inner ≤ v.outer)
    (hd : device (command_of kind).1 (command_of kind).2 (next_sequence cfg.sequence_num)
      [v.inner, v.outer] = .error e) :
    (set_field device command_of cfg kind v).1 = .error (.Channel e) ∧
    (∀ other : deadzone_field,
      get_field (set_field device command_of cfg kind v).2 other = get_field cfg other) ∧
    (set_field device command_of cfg kind v).2.sequence_num =
      next_sequence cfg.sequence_num := by
  have hset : set_field device command_of cfg kind v =
      (.error (.Channel e), (alloc_sequence cfg).2) := by
    simp [set_field, send_set, alloc_sequence, hv, hd]
  rw [hset]
  refine ⟨rfl, ?_, rfl⟩
  intro other
  cases other <;> rfl

/-- One `set_field` call keeps every stored deadzone ordered, whatever the
device answers. -/
theorem set_field_keeps_ordered (device : device_answer)
    (command_of : deadzone_field → u8 × u8) (cfg : zotac_cfg_data) (kind : deadzone_field)
    (v : deadzone) (h : deadzones_ordered cfg) :
    deadzones_ordered (set_field device command_of cfg kind v).2 := by
  have hsent : deadzones_ordered
      (send_set device cfg (command_of kind).1 (command_of kind).2 [v.inner, v.outer]).2 := by
    intro other
    rw [get_field_send_set]
    exact h other
  unfold set_field
  split
  · rename_i hv
    split
    · rename_i sent hs
      have hsent2 : deadzones_ordered sent := by
        rw [hs] at hsent
        exact hsent
      intro other
      by_cases ho : other = kind
      · subst ho
        rw [get_field_store_deadzone_same]
        exact hv
      · rw [get_field_store_deadzone_other sent kind other v ho]
        exact hsent2 other
    · rename_i e sent hs
      rw [hs] at hsent
      exact hsent
  · exact h

/-- A run of store operations keeps every stored deadzone ordered. -/
theorem run_ops_keeps_ordered (command_of : deadzone_field → u8 × u8)
    (ops : List store_op) (cfg : zotac_cfg_data) (h : deadzones_ordered cfg) :
    deadzones_ordered (run_ops command_of cfg ops) := by
  induction ops generalizing cfg with
  | nil => exact h
  | cons op ops ih =>
    apply ih
    cases op with
    | set_deadzone device kind value =>
      exact set_field_keeps_ordered device command_of cfg kind value h
    | send device cmd_code setting data =>
      intro other
      show (get_field (send_set device cfg cmd_code setting data).2 other).inner ≤
        (get_field (send_set device cfg cmd_code setting data).2 other).outer
      rw [get_field_send_set]
      exact h other

/-- The zero-filled store has every deadzone ordered. -/
theorem zeroed_deadzones_ordered : deadzones_ordered zotac_cfg_data.zeroed := by
  intro kind
  cases kind <;> decide

/-- C1: for every deadzone field of the configuration store and every pair of
bytes (inner, outer): if inner ≤ outer, `set_field` (its frame acknowledged by
the device) succeeds and a following `get_field` returns exactly
`{inner, outer}`, the other deadzones being unchanged; if inner > outer,
`set_field` fails with `ValidationError` whatever the device would answer, and
the store, the stored deadzone included, is unchanged.  Consequently every
stored deadzone satisfies inner ≤ outer at all times: in every store reached by
any run of store operations, with any device answers, from a store whose
deadzones are ordered, and so from the zero-filled store. -/
theorem set_field_deadzone_contract (device : device_answer)
    (command_of : deadzone_field → u8 × u8) (cfg : zotac_cfg_data)
    (kind : deadzone_field) (v : deadzone) :
    (v.inner ≤ v.outer →
      device (command_of kind).1 (command_of kind).2 (next_sequence cfg.sequence_num)
        [v.inner, v.outer] = .ok () →
      (set_field device command_of cfg kind v).1 = .ok () ∧
      get_field (set_field device command_of cfg kind v).2 kind = v ∧
      ∀ other : deadzone_field, other ≠ kind →
        get_field (set_field device command_of cfg kind v).2 other =
          get_field cfg other) ∧
    (v.outer < v.inner →
      (set_field device command_of cfg kind v).1 = .error .ValidationError ∧
      (set_field device command_of cfg kind v).2 = cfg ∧
      get_field (set_field device command_of cfg kind v).2 kind = get_field cfg kind) ∧
    (deadzones_ordered cfg →
      deadzones_ordered (set_field device command_of cfg kind v).2) ∧
    (deadzones_ordered cfg → ∀ ops : List store_op,
      deadzones_ordered (run_ops command_of cfg ops)) ∧
    (∀ ops : List store_op,
      deadzones_ordered (run_ops command_of zotac_cfg_data.zeroed ops)) := by
  refine ⟨?_, ?_, set_field_keeps_ordered device command_of cfg kind v,
    fun h ops => run_ops_keeps_ordered command_of ops cfg h,
    fun ops => run_ops_keeps_ordered command_of ops _ zeroed_deadzones_ordered⟩
  · intro hv hd
    have hset : set_field device command_of cfg kind v =
        (.ok (), store_deadzone (alloc_sequence cfg).2 kind v) := by
      simp [set_field, send_set, alloc_sequence, hv, hd]
    rw [hset]
    refine ⟨rfl, get_field_store_deadzone_same _ kind v, ?_⟩
    intro other ho
    rw [get_field_store_deadzone_other _ kind other v ho]
    cases other <;> rfl
  · intro hv
    have hnot : ¬ v.inner ≤ v.outer := not_le.mpr hv
    have hset : set_field device command_of cfg kind v = (.error .ValidationError, cfg) := by
      simp [set_field, hnot]
    rw [hset]
    exact ⟨rfl, rfl, rfl⟩

/-- C1 at the zero-filled store: with an acknowledging device the left-stick
deadzone `{10, 240}` is stored and read back; the pair `{240, 10}` is rejected
with `ValidationError` and the store is unchanged; after a run that stores
`{10, 240}`, lets the unplugged device fail a second call and rejects a third,
the deadzones are still ordered. -/
theorem set_field_deadzone_contract_witness :
    ((set_field device_acks (fun _ => (0, 0)) zotac_cfg_data.zeroed .ls_dz
        ⟨10, 240⟩).1 = .ok () ∧
      get_field (set_field device_acks (fun _ => (0, 0)) zotac_cfg_data.zeroed .ls_dz
        ⟨10, 240⟩).2 .ls_dz = ⟨10, 240⟩) ∧
    ((set_field device_acks (fun _ => (0, 0)) zotac_cfg_data.zeroed .ls_dz
        ⟨240, 10⟩).1 = .error .ValidationError ∧
      (set_field device_acks (fun _ => (0, 0)) zotac_cfg_data.zeroed .ls_dz
        ⟨240, 10⟩).2 = zotac_cfg_data.zeroed) ∧
    deadzones_ordered (run_ops (fun _ => (0, 0)) zotac_cfg_data.zeroed
      [.set_deadzone device_acks .rs_dz ⟨10, 240⟩,
       .set_deadzone device_disconnected .rs_dz ⟨20, 30⟩,
       .set_deadzone device_acks .rs_dz ⟨240, 10⟩]) :=
  ⟨⟨((set_field_deadzone_contract device_acks (fun _ => (0, 0)) zotac_cfg_data.zeroed
        .ls_dz ⟨10, 240⟩).1 (by decide) rfl).1,
    ((set_field_deadzone_contract device_acks (fun _ => (0, 0)) zotac_cfg_data.zeroed
        .ls_dz ⟨10, 240⟩).1 (by decide) rfl).2.1⟩,
   ⟨((set_field_deadzone_contract device_acks (fun _ => (0, 0)) zotac_cfg_data.zeroed
        .ls_dz ⟨240, 10⟩).2.1 (by decide)).1,
    ((set_field_deadzone_contract device_acks (fun _ => (0, 0)) zotac_cfg_data.zeroed
        .ls_dz ⟨240, 10⟩).2.1 (by decide)).2.1⟩,
   (set_field_deadzone_contract device_acks (fun _ => (0, 0)) zotac_cfg_data.zeroed
      .ls_dz ⟨10, 240⟩).2.2.2.2 _⟩

end ZotacZone
